import Mathlib

/-!
Shallow embedding of the speakflow-frontend core: the voice-activity
detector and playback logic of `src/components/AudioPlayer.tsx` and
`src/screens/ScriptPracticeScreen.tsx`, the transcript resolver of the
whisper service module, and the manual base64 encoder of the TTS service
module.  Each definition is translated from the corresponding source
function; theorems settle the frozen claims about them.
-/

namespace VAD

/-- `silenceThreshold = 8` (AudioPlayer.tsx line 92). -/
def silenceThreshold : Nat := 8

/-- `speechThreshold = 3` (AudioPlayer.tsx line 93). -/
def speechThreshold : Nat := 3

/-- `volumeThreshold = 15` (AudioPlayer.tsx line 94). -/
def volumeThreshold : ℚ := 15

/-- `speechFrequencyThreshold = 25` (AudioPlayer.tsx line 95). -/
def speechFrequencyThreshold : ℚ := 25

/-- `const isSpeech = rms > volumeThreshold && speechEnergy > speechFrequencyThreshold`
(AudioPlayer.tsx line 123).  `rms` and `speechEnergy` are the per-tick
signal measurements, taken as inputs. -/
def classifyTick (rms speechEnergy : ℚ) : Bool :=
  decide (rms > volumeThreshold) && decide (speechEnergy > speechFrequencyThreshold)

/-- State of one armed voice-activity-detection run:
`silenceCount`/`speechCount` are the closure-local counters,
`intervalArmed` stands for `vadIntervalRef.current` being non-null,
`analyserPresent` for `analyserRef.current`, `callbackPresent` for
`onSilenceDetectedRef.current`, `playing` for the player's `isPlaying`
state, and `fired` counts invocations of `onSilenceDetected`. -/
structure VadState where
  silenceCount : Nat
  speechCount : Nat
  intervalArmed : Bool
  analyserPresent : Bool
  callbackPresent : Bool
  playing : Bool
  fired : Nat
  deriving DecidableEq

/-- `stopVoiceActivityDetection` (AudioPlayer.tsx lines 160-175): clears
the interval, closes the audio context, and nulls `analyserRef` and
`onSilenceDetectedRef`. -/
def stopVoiceActivityDetection (s : VadState) : VadState :=
  { s with intervalArmed := false, analyserPresent := false, callbackPresent := false }

/-- State right after `startVoiceActivityDetection` successfully arms the
interval: counters start at 0, the analyser and callback refs are set. -/
def vadInit : VadState :=
  { silenceCount := 0, speechCount := 0, intervalArmed := true,
    analyserPresent := true, callbackPresent := true, playing := true, fired := 0 }

/-- One tick of the VAD interval body (AudioPlayer.tsx lines 97-147).
A cleared interval no longer ticks; the body returns early when
`analyserRef.current` is null or the player is not playing.  On a Speech
tick `speechCount` is incremented and `silenceCount` is reset to 0 once
`speechCount` reaches `speechThreshold`.  On a Silence tick `speechCount`
is reset, `silenceCount` incremented, and at `silenceThreshold` the code
runs `stopVoiceActivityDetection()` and then fires the callback only if
`onSilenceDetectedRef.current` is still set (the stop call just nulled it). -/
def vadTick (s : VadState) (rms speechEnergy : ℚ) : VadState :=
  if s.intervalArmed = false then s
  else if s.analyserPresent = false ∨ s.playing = false then s
  else if classifyTick rms speechEnergy then
    let speechCount := s.speechCount + 1
    if speechThreshold ≤ speechCount then
      { s with speechCount := speechCount, silenceCount := 0 }
    else
      { s with speechCount := speechCount }
  else
    let silenceCount := s.silenceCount + 1
    let s1 := { s with speechCount := 0, silenceCount := silenceCount }
    if silenceThreshold ≤ silenceCount then
      let s2 := stopVoiceActivityDetection s1
      if s2.callbackPresent then { s2 with fired := s2.fired + 1 } else s2
    else s1

/-- `k` successive ticks of the armed interval, all with the same
measurements `rms`/`e`. -/
def vadSteps (rms e : ℚ) (k : Nat) (s : VadState) : VadState :=
  (fun t => vadTick t rms e)^[k] s

end VAD

namespace TTS

/-- `const chars = 'ABCDEFGHIJKLMNOPQRSTUVWXYZabcdefghijklmnopqrstuvwxyz0123456789+/'`
(TTSService, `arrayBufferToBase64`). -/
def base64Chars : List Char :=
  ['A', 'B', 'C', 'D', 'E', 'F', 'G', 'H', 'I', 'J', 'K', 'L', 'M',
   'N', 'O', 'P', 'Q', 'R', 'S', 'T', 'U', 'V', 'W', 'X', 'Y', 'Z',
   'a', 'b', 'c', 'd', 'e', 'f', 'g', 'h', 'i', 'j', 'k', 'l', 'm',
   'n', 'o', 'p', 'q', 'r', 's', 't', 'u', 'v', 'w', 'x', 'y', 'z',
   '0', '1', '2', '3', '4', '5', '6', '7', '8', '9', '+', '/']

/-- `chars.charAt(n)` for the indices `0..63` actually used. -/
def b64CharAt (n : Nat) : Char := base64Chars.getD n 'A'

/-- One loop iteration of `arrayBufferToBase64`: after consuming the
chunk, `i` has advanced to `iEnd` (the conditional `i++` in the ternaries
only advances while bytes remain), and the 3rd/4th output characters are
`'='` exactly when `iEnd - 2 < buffer.length` respectively
`iEnd - 1 < buffer.length` FAIL — the source's conditions, kept verbatim,
with JS signed arithmetic modelled on `Int`. -/
def b64Chunk (len iEnd : Int) (a b c : Nat) : List Char :=
  let bitmap := (a <<< 16) ||| (b <<< 8) ||| c
  [b64CharAt ((bitmap >>> 18) &&& 63),
   b64CharAt ((bitmap >>> 12) &&& 63),
   if iEnd - 2 < len then b64CharAt ((bitmap >>> 6) &&& 63) else '=',
   if iEnd - 1 < len then b64CharAt (bitmap &&& 63) else '=']

/-- The `while (i < buffer.length)` loop of `arrayBufferToBase64`,
tracking the absolute position `i`; `b`/`c` default to 0 when the buffer
is exhausted, and `i` advances only per byte actually read. -/
def b64Go (len : Int) : List Nat → Int → List Char
  | [], _ => []
  | [a], i => b64Chunk len (i + 1) a 0 0
  | [a, b], i => b64Chunk len (i + 2) a b 0
  | a :: b :: c :: rest, i => b64Chunk len (i + 3) a b c ++ b64Go len rest (i + 3)

/-- `arrayBufferToBase64(buffer)` of the TTS service module: the manual
base64 fallback encoder, bytes given as a list of values `< 256`. -/
def arrayBufferToBase64 (buffer : List Nat) : String :=
  String.mk (b64Go (buffer.length : Int) buffer 0)

/-- Standard RFC 4648 base64 (the value `btoa` would produce), stated
from the claim's words for comparison with `arrayBufferToBase64`. -/
def rfc4648Encode : List Nat → List Char
  | [] => []
  | [a] =>
      [b64CharAt (a >>> 2), b64CharAt ((a &&& 3) <<< 4), '=', '=']
  | [a, b] =>
      [b64CharAt (a >>> 2), b64CharAt (((a &&& 3) <<< 4) ||| (b >>> 4)),
       b64CharAt ((b &&& 15) <<< 2), '=']
  | a :: b :: c :: rest =>
      let bitmap := (a <<< 16) ||| (b <<< 8) ||| c
      [b64CharAt (bitmap >>> 18), b64CharAt ((bitmap >>> 12) &&& 63),
       b64CharAt ((bitmap >>> 6) &&& 63), b64CharAt (bitmap &&& 63)]
        ++ rfc4648Encode rest

/-- RFC 4648 base64 as a string. -/
def rfc4648Base64 (buffer : List Nat) : String :=
  String.mk (rfc4648Encode buffer)

end TTS



namespace Resolver

/-- The two transcript sources of the whisper service module:
`'youtube' | 'whisper'` (captions vs. server-side transcription). -/
inductive Source
  | youtube
  | whisper
  deriving DecidableEq

/-- `ProcessedSentence` of the whisper service module (text with start,
end and duration in seconds). -/
structure ProcessedSentence where
  text : String
  startSec : ℚ
  endSec : ℚ
  duration : ℚ
  deriving DecidableEq

/-- `TranscriptResult` of the whisper service module. -/
structure TranscriptResult where
  success : Bool
  source : Source
  sentences : List ProcessedSentence
  deriving DecidableEq

/-- External operations `getTranscriptData` performs, in order: the
bounded whisper-cache probe (`getWhisperFromCache`), the audio-extraction
plus `/whisper/transcribe` request (`transcribeWithWhisper` past its cache
check), and a `getYouTubeSubtitles` request. -/
inductive Action
  | cacheProbe
  | fullTranscription
  | captionFetch
  deriving DecidableEq

/-- Outcome of one `getYouTubeSubtitles(videoId, true)` call: `ok s` when
the endpoint answers `success` with sentence list `s` (possibly empty),
`thrown` when the call throws. -/
inductive YtOutcome
  | ok (sentences : List ProcessedSentence)
  | thrown
  deriving DecidableEq

/-- Outcome of one `transcribeWithWhisper(videoId)` call, split at its two
suspension points: `cached` is the `getWhisperFromCache` result (`some`
sentences on a cache hit within the 5000ms bound, `none` on miss or
timeout), `full` the outcome of the extraction-plus-transcription path
(`none` models a thrown error). -/
structure WhisperOutcome where
  cached : Option (List ProcessedSentence)
  full : Option (List ProcessedSentence)
  deriving DecidableEq

/-- The `setTimeout(() => controller.abort(), 5000)` bound of
`getWhisperFromCache`. -/
def cacheProbeTimeoutMs : Nat := 5000

/-- `transcribeWithWhisper` (whisper service module lines 262-340): quick
cache check first, on a hit return the cached result; otherwise extract
audio and submit for full transcription.  Returns the result (`none` when
it throws) and the external actions performed. -/
def transcribeWithWhisper (w : WhisperOutcome) : Option TranscriptResult × List Action :=
  match w.cached with
  | some s => (some ⟨true, Source.whisper, s⟩, [Action.cacheProbe])
  | none =>
      match w.full with
      | some s => (some ⟨true, Source.whisper, s⟩, [Action.cacheProbe, Action.fullTranscription])
      | none => (none, [Action.cacheProbe, Action.fullTranscription])

/-- The source-affinity map `sourceCache : Map<string, 'youtube' | 'whisper'>`. -/
def Affinity : Type := String → Option Source

/-- `sourceCache.set(videoId, src)`. -/
def setAffinity (m : Affinity) (videoId : String) (src : Source) : Affinity :=
  fun k => if k = videoId then some src else m k

/-- Step 2 of `getTranscriptData`: fall back to Whisper; on success record
`'whisper'` in the source cache, on failure the whole call throws. -/
def resolveStep2 (m : Affinity) (videoId : String) (w : WhisperOutcome)
    (tr : List Action) : Option TranscriptResult × Affinity × List Action :=
  match transcribeWithWhisper w with
  | (some r, acts) => (some r, setAffinity m videoId Source.whisper, tr ++ acts)
  | (none, acts) => (none, m, tr ++ acts)

/-- Step 1 of `getTranscriptData`: try YouTube subtitles; on a successful
non-empty result record `'youtube'` and return, otherwise fall through to
step 2. -/
def resolveStep1 (m : Affinity) (videoId : String) (y : YtOutcome)
    (w : WhisperOutcome) (tr : List Action) :
    Option TranscriptResult × Affinity × List Action :=
  let tr1 := tr ++ [Action.captionFetch]
  match y with
  | YtOutcome.ok s =>
      if s.isEmpty then resolveStep2 m videoId w tr1
      else (some ⟨true, Source.youtube, s⟩, setAffinity m videoId Source.youtube, tr1)
  | YtOutcome.thrown => resolveStep2 m videoId w tr1

/-- Environment of one `getTranscriptData` call: the outcomes of its
first and (when reached) second YouTube-subtitles request, and of its
first and second whisper attempt. -/
structure Env where
  yt1 : YtOutcome
  yt2 : YtOutcome
  wh1 : WhisperOutcome
  wh2 : WhisperOutcome
  deriving DecidableEq

/-- `getTranscriptData(videoId)` (whisper service module lines 70-142).
Consults the source cache: with a `'whisper'` preference it calls
`transcribeWithWhisper` directly, returning its result on success
(without touching the cache) and falling through to the YouTube attempt
on error; with a `'youtube'` preference it tries subtitles first,
returning a successful non-empty result directly; otherwise it runs
step 1 (subtitles, recording `'youtube'` on success) then step 2
(whisper, recording `'whisper'` on success).  Returns the result
(`none` when the call throws), the updated affinity map, and the trace
of external actions. -/
def getTranscriptData (m : Affinity) (videoId : String) (env : Env) :
    Option TranscriptResult × Affinity × List Action :=
  match m videoId with
  | some Source.whisper =>
      match transcribeWithWhisper env.wh1 with
      | (some r, acts) => (some r, m, acts)
      | (none, acts) => resolveStep1 m videoId env.yt1 env.wh2 acts
  | some Source.youtube =>
      match env.yt1 with
      | YtOutcome.ok s =>
          if s.isEmpty then resolveStep1 m videoId env.yt2 env.wh1 [Action.captionFetch]
          else (some ⟨true, Source.youtube, s⟩, m, [Action.captionFetch])
      | YtOutcome.thrown => resolveStep1 m videoId env.yt2 env.wh1 [Action.captionFetch]
  | none => resolveStep1 m videoId env.yt1 env.wh1 []

end Resolver

namespace Setup

/-- How far graph construction gets inside `startVoiceActivityDetection`
(AudioPlayer.tsx lines 52-158): the early `Platform.OS !== 'web'` return,
the `createMediaElementSource` throw caught by the inner handler, any
other exception reaching the outer `catch`, or success. -/
inductive GraphOutcome
  | notWebRuntime
  | sourceAlreadyConnected
  | constructionError
  | okGraph
  deriving DecidableEq

/-- What one call to `startVoiceActivityDetection` leaves armed:
whether the VAD interval is running, the delay of the timer fallback (if
any) that will fire `onSilenceDetected`, and whether an error was thrown
to the caller. -/
structure ArmResult where
  vadIntervalArmed : Bool
  fallbackDelayMs : Option Nat
  errorSurfaced : Bool
  deriving DecidableEq

/-- `startVoiceActivityDetection` at setup granularity.  A non-web
runtime returns at once (line 53).  A `createMediaElementSource` failure
is caught by the inner handler, which warns and returns (lines 67-72).
Only an exception reaching the outer `catch` arms the 5000ms
`setTimeout` fallback that fires the same callback (lines 149-157).  No
branch rethrows. -/
def startVoiceActivityDetectionSetup : GraphOutcome → ArmResult
  | GraphOutcome.notWebRuntime => ⟨false, none, false⟩
  | GraphOutcome.sourceAlreadyConnected => ⟨false, none, false⟩
  | GraphOutcome.constructionError => ⟨false, some 5000, false⟩
  | GraphOutcome.okGraph => ⟨true, none, false⟩

end Setup

namespace Playback

/-- The platform split of `AudioPlayer.tsx`: `WebAudioPlayer` (with VAD)
on web, `NativeAudioPlayer` (timer fallback) elsewhere. -/
inductive Plat
  | web
  | native
  deriving DecidableEq

/-- A practice sentence as used by `playSentenceOnly`:
`{start, end, duration}` in seconds. -/
structure Sentence where
  startSec : ℚ
  endSec : ℚ
  duration : ℚ
  deriving DecidableEq

/-- The audio player's own state: its `isPlaying`, and which playback
attempt (tag) armed the VAD interval and the sentence-end check interval,
`none` when unarmed. -/
structure PlayerState where
  playing : Bool
  vadGen : Option Nat
  endCheckGen : Option Nat
  deriving DecidableEq

/-- Orchestrator-level state of `ScriptPracticeScreen`: the player, the
`sentenceTimerRef` timer (attempt tag and delay in ms), and the screen's
state flags.  `ttsActive` models the TTS service playing;
`pendingAdvance` a scheduled auto-advance continuation. -/
structure OrchState where
  player : PlayerState
  sentenceTimer : Option (Nat × ℚ)
  isPlaying : Bool
  isGlobalPlaying : Bool
  isTTSPlaying : Bool
  isAudioPlaying : Bool
  isAutoPlay : Bool
  ttsActive : Bool
  currentIndex : Nat
  currentSentence : Option Sentence
  seekPos : Option ℚ
  pendingAdvance : Bool
  deriving DecidableEq

/-- `pause()` of the two players: the web player (AudioPlayer.tsx lines
208-220) also stops VAD and clears the end-check interval; the native one
only pauses the sound. -/
def playerPause : Plat → PlayerState → PlayerState
  | Plat.web, _ => { playing := false, vadGen := none, endCheckGen := none }
  | Plat.native, p => { p with playing := false }

/-- `playWithVAD(onSilenceDetected, endTime)` of the web player
(AudioPlayer.tsx lines 225-257), arming attempt `g`: if already playing,
pause and tear down the previous VAD and end-check; then (when `endTime`
is truthy) arm the end-check interval; then play and run
`startVoiceActivityDetection`, which stops any previous VAD before
arming the new interval (graph construction taken to succeed — its
failure modes are modelled in `Setup`). -/
def playWithVAD (g : Nat) (endTime : ℚ) (p : PlayerState) : PlayerState :=
  let p1 := if p.playing then { playing := false, vadGen := none, endCheckGen := none }
            else p
  let p2 := if endTime ≠ 0 then { p1 with endCheckGen := some g } else p1
  { p2 with playing := true, vadGen := some g }

/-- `play()` of the native player: just starts the sound. -/
def playerPlayNative (p : PlayerState) : PlayerState :=
  { p with playing := true }

/-- `paddingMs = 200` (ScriptPracticeScreen.tsx, `playSentenceOnly`). -/
def paddingMs : ℚ := 200

/-- `playSentenceOnly(sentence)` (ScriptPracticeScreen.tsx lines
495-556), the attempt tagged `g`: set the current sentence, set
`isPlaying`, seek to `sentence.start`; on web call `playWithVAD` with
`endTime = start + duration`; otherwise play and arm a stop timer of
`duration * 1000 + paddingMs` ms, clearing any previous
`sentenceTimerRef` timer before storing the new one. -/
def playSentenceOnly (plat : Plat) (g : Nat) (sen : Sentence) (s : OrchState) : OrchState :=
  let s1 := { s with currentSentence := some sen, isPlaying := true,
                     seekPos := some sen.startSec }
  match plat with
  | Plat.web =>
      { s1 with player := playWithVAD g (sen.startSec + sen.duration) s1.player }
  | Plat.native =>
      { s1 with player := playerPlayNative s1.player,
                sentenceTimer := some (g, sen.duration * 1000 + paddingMs) }

/-- The stop-timer callback of `playSentenceOnly` (lines 541-553) firing:
pause the player, clear `isPlaying` and the current sentence; when Auto
Play is on, a follow-up play of the next sentence is scheduled (after
500ms) without touching `currentSentenceIndex`.  A timer that is not
armed cannot fire. -/
def fireSentenceTimer (plat : Plat) (s : OrchState) : OrchState :=
  match s.sentenceTimer with
  | none => s
  | some _ =>
      { s with sentenceTimer := none, player := playerPause plat s.player,
               isPlaying := false, currentSentence := none,
               pendingAdvance := s.isAutoPlay }

/-- The pause direction of `toggleGlobalPlayback` (ScriptPracticeScreen.tsx
lines 410-437), taken when `isGlobalPlaying` is set: stop TTS if
`isTTSPlaying`; pause the audio player if `isAudioPlaying`; clear Auto
Play; clear `sentenceTimerRef`; clear `isGlobalPlaying`. -/
def toggleGlobalPlaybackPause (plat : Plat) (s : OrchState) : OrchState :=
  let s1 := if s.isTTSPlaying then { s with ttsActive := false, isTTSPlaying := false }
            else s
  let s2 := if s1.isAudioPlaying then
              { s1 with player := playerPause plat s1.player, isAudioPlaying := false }
            else s1
  let s3 := if s2.isAutoPlay then { s2 with isAutoPlay := false } else s2
  let s4 := { s3 with sentenceTimer := none }
  { s4 with isGlobalPlaying := false }

/-- The attempt tags of all armed end-of-sentence triggers: the stop
timer, the VAD interval and the end-check interval. -/
def armedTriggerGens (s : OrchState) : List Nat :=
  (s.sentenceTimer.map Prod.fst).toList ++ s.player.vadGen.toList
    ++ s.player.endCheckGen.toList

/-- States consistent with the platform: the web path never arms
`sentenceTimerRef` inside `playSentenceOnly`, the native path never arms
VAD or the end check. -/
def cleanState : Plat → OrchState → Prop
  | Plat.web, s => s.sentenceTimer = none
  | Plat.native, s => s.player.vadGen = none ∧ s.player.endCheckGen = none

end Playback

/-! ## Helper lemmas -/

namespace VAD

lemma vadSteps_succ (rms e : ℚ) (k : Nat) (s : VadState) :
    vadSteps rms e (k + 1) s = vadTick (vadSteps rms e k s) rms e := by
  simp [vadSteps, Function.iterate_succ_apply']

lemma speech_run_closed (s : VadState) (rms e : ℚ)
    (h1 : s.intervalArmed = true) (h2 : s.analyserPresent = true)
    (h3 : s.playing = true) (h4 : s.speechCount = 0)
    (hs : classifyTick rms e = true) (k : Nat) :
    vadSteps rms e k s =
      { s with speechCount := k,
               silenceCount := if speechThreshold ≤ k then 0 else s.silenceCount } := by
  induction k with
  | zero =>
      simp [vadSteps]
      cases s
      simp_all [speechThreshold]
  | succ k ih =>
      rw [vadSteps_succ, ih]
      simp only [vadTick, h1, h2, h3, hs]
      split_ifs with hc1 hc2 hc3 hc4
      all_goals simp_all [speechThreshold]
      all_goals omega

end VAD

namespace Resolver

lemma transcribeWithWhisper_source (w : WhisperOutcome) (r : TranscriptResult)
    (h : (transcribeWithWhisper w).1 = some r) : r.source = Source.whisper := by
  obtain ⟨c, f⟩ := w
  cases c <;> cases f <;> simp_all [transcribeWithWhisper] <;> simp [← h]

lemma setAffinity_self (m : Affinity) (v : String) (src : Source) :
    setAffinity m v src v = some src := by
  simp [setAffinity]

lemma resolveStep2_spec (m : Affinity) (v : String) (w : WhisperOutcome) (tr : List Action) :
    (∀ r, (resolveStep2 m v w tr).1 = some r →
      (resolveStep2 m v w tr).2.1 v = some r.source)
    ∧ ((resolveStep2 m v w tr).1 = none → (resolveStep2 m v w tr).2.1 = m) := by
  obtain ⟨c, f⟩ := w
  cases c <;> cases f <;>
    simp_all [resolveStep2, transcribeWithWhisper, setAffinity_self]

lemma resolveStep1_spec (m : Affinity) (v : String) (y : YtOutcome)
    (w : WhisperOutcome) (tr : List Action) :
    (∀ r, (resolveStep1 m v y w tr).1 = some r →
      (resolveStep1 m v y w tr).2.1 v = some r.source)
    ∧ ((resolveStep1 m v y w tr).1 = none → (resolveStep1 m v y w tr).2.1 = m) := by
  cases y with
  | ok s =>
      by_cases hs : s.isEmpty
      · simpa [resolveStep1, hs] using resolveStep2_spec m v w (tr ++ [Action.captionFetch])
      · simp_all [resolveStep1, setAffinity_self]
  | thrown =>
      simpa [resolveStep1] using resolveStep2_spec m v w (tr ++ [Action.captionFetch])

lemma resolveStep2_trace (m : Affinity) (v : String) (w : WhisperOutcome) (tr : List Action) :
    ∃ rest, (resolveStep2 m v w tr).2.2 = tr ++ rest := by
  obtain ⟨c, f⟩ := w
  cases c <;> cases f <;> simp [resolveStep2, transcribeWithWhisper]

lemma resolveStep1_trace (m : Affinity) (v : String) (y : YtOutcome)
    (w : WhisperOutcome) (tr : List Action) :
    ∃ rest, (resolveStep1 m v y w tr).2.2 = tr ++ (Action.captionFetch :: rest) := by
  cases y with
  | ok s =>
      by_cases hs : s.isEmpty
      · obtain ⟨rest, hr⟩ := resolveStep2_trace m v w (tr ++ [Action.captionFetch])
        exact ⟨rest, by simp_all [resolveStep1]⟩
      · exact ⟨[], by simp_all [resolveStep1]⟩
  | thrown =>
      obtain ⟨rest, hr⟩ := resolveStep2_trace m v w (tr ++ [Action.captionFetch])
      exact ⟨rest, by simp_all [resolveStep1]⟩

end Resolver

/-! ## Claim theorems -/

/-- C1. "When the consecutive-silent-tick counter reaches the configured
silence threshold (8 ticks), onSilenceDetected is invoked exactly once and
tick sampling stops."  The code contradicts this: on the 8th silent tick
the interval body calls `stopVoiceActivityDetection()` BEFORE checking
`onSilenceDetectedRef.current`, and that stop call nulls the callback ref
(AudioPlayer.tsx line 171), so sampling does stop but the callback is
invoked zero times, not once.  This theorem evaluates the embedded tick
machine at the failing input: a freshly armed run fed 8 consecutive
silent ticks. -/
theorem vad_silence_threshold_stops_sampling_but_never_fires :
    ((VAD.vadSteps 0 0 8 VAD.vadInit).silenceCount = VAD.silenceThreshold)
    ∧ ((VAD.vadSteps 0 0 8 VAD.vadInit).intervalArmed = false)
    ∧ ((VAD.vadSteps 0 0 8 VAD.vadInit).callbackPresent = false)
    ∧ ((VAD.vadSteps 0 0 8 VAD.vadInit).fired = 0)
    ∧ (∀ k, k < 8 → (VAD.vadSteps 0 0 k VAD.vadInit).fired = 0
        ∧ (VAD.vadSteps 0 0 k VAD.vadInit).intervalArmed = true) := by
  decide

/-- C9. In an armed VAD run, at the start of a speech run
(`speechCount = 0`): a consecutive run of Speech-classified ticks shorter
than the stability threshold (3) leaves `silenceCount` unchanged; a run
reaching the threshold resets it to 0; and a tick is classified Speech iff
its RMS exceeds the volume threshold AND its speech-band energy exceeds
the energy threshold. -/
theorem vad_short_speech_run_preserves_silence_count (s : VAD.VadState) (rms e : ℚ)
    (h1 : s.intervalArmed = true) (h2 : s.analyserPresent = true)
    (h3 : s.playing = true) (h4 : s.speechCount = 0)
    (hs : VAD.classifyTick rms e = true) :
    (∀ k, k < VAD.speechThreshold →
      (VAD.vadSteps rms e k s).silenceCount = s.silenceCount)
    ∧ (∀ k, VAD.speechThreshold ≤ k → (VAD.vadSteps rms e k s).silenceCount = 0)
    ∧ (∀ r q : ℚ, VAD.classifyTick r q = true ↔
        (VAD.volumeThreshold < r ∧ VAD.speechFrequencyThreshold < q)) := by
  refine ⟨fun k hk => ?_, fun k hk => ?_, fun r q => ?_⟩
  · rw [VAD.speech_run_closed s rms e h1 h2 h3 h4 hs k]
    simp only [if_neg (by omega : ¬ VAD.speechThreshold ≤ k)]
  · rw [VAD.speech_run_closed s rms e h1 h2 h3 h4 hs k]
    simp only [if_pos hk]
  · simp [VAD.classifyTick, decide_eq_true_eq]

/-- Witness for C9 at a concrete input: the armed initial state, with a
speech-classified tick (RMS 100, band energy 100); 2 speech ticks leave
`silenceCount` at its previous value and 3 reset it to 0. -/
theorem vad_short_speech_run_witness :
    VAD.classifyTick 100 100 = true
    ∧ (VAD.vadSteps 100 100 2 VAD.vadInit).silenceCount = VAD.vadInit.silenceCount
    ∧ (VAD.vadSteps 100 100 3 VAD.vadInit).silenceCount = 0 :=
  ⟨by decide,
   (vad_short_speech_run_preserves_silence_count VAD.vadInit 100 100 rfl rfl rfl rfl
     (by decide)).1 2 (by decide),
   (vad_short_speech_run_preserves_silence_count VAD.vadInit 100 100 rfl rfl rfl rfl
     (by decide)).2.1 3 (by decide)⟩

/-- C10. The claim says `arrayBufferToBase64` agrees with RFC 4648 base64
(`btoa`), including '=' padding for lengths not a multiple of 3.  The
code's padding conditions compare the already-advanced index `i` against
the length (`i - 2 < buffer.length` after `i` stopped advancing at the end
of the buffer), which always hold, so '=' is never emitted: the single
byte 0 encodes to "AAAA" where btoa gives "AA==". -/
theorem arrayBufferToBase64_padding_mismatch :
    TTS.arrayBufferToBase64 [0] = "AAAA"
    ∧ TTS.rfc4648Base64 [0] = "AA=="
    ∧ TTS.arrayBufferToBase64 [0] ≠ TTS.rfc4648Base64 [0]
    ∧ TTS.arrayBufferToBase64 [77, 97] = "TWEA"
    ∧ TTS.rfc4648Base64 [77, 97] = "TWE="
    ∧ TTS.arrayBufferToBase64 [77, 97, 110] = TTS.rfc4648Base64 [77, 97, 110] := by
  decide

/-- C2 counterexample.  With a `'whisper'` affinity for "v" and a cache
miss, the code performs the full transcription path directly and, when it
succeeds, never attempts captions — refuting "on a cache timeout or miss
it tries captions as a backup before performing the full transcription
path". -/
theorem resolver_transcribed_cache_miss_skips_captions_cex :
    ((Resolver.getTranscriptData (fun _ => some Resolver.Source.whisper) "v"
        ⟨Resolver.YtOutcome.thrown, Resolver.YtOutcome.thrown,
         ⟨none, some []⟩, ⟨none, none⟩⟩).2.2
      = [Resolver.Action.cacheProbe, Resolver.Action.fullTranscription])
    ∧ Resolver.Action.captionFetch ∉
        (Resolver.getTranscriptData (fun _ => some Resolver.Source.whisper) "v"
          ⟨Resolver.YtOutcome.thrown, Resolver.YtOutcome.thrown,
           ⟨none, some []⟩, ⟨none, none⟩⟩).2.2
    ∧ (Resolver.getTranscriptData (fun _ => some Resolver.Source.whisper) "v"
        ⟨Resolver.YtOutcome.thrown, Resolver.YtOutcome.thrown,
         ⟨none, some []⟩, ⟨none, none⟩⟩).1.isSome = true := by
  constructor
  · rfl
  · constructor
    · decide
    · rfl

/-- C2 amended.  For a mediaId whose affinity is `'whisper'`: the probe
bound is 5000ms and the probe is the first external action; on a cache hit
the cached result is returned immediately with no further action; on a
cache timeout or miss the full transcription path is performed directly
(captions are NOT tried in between); captions are attempted as a backup
only when the whole whisper path (cache probe plus transcription) fails. -/
theorem resolver_transcribed_probes_cache_then_transcribes (m : Resolver.Affinity)
    (videoId : String) (env : Resolver.Env)
    (h : m videoId = some Resolver.Source.whisper) :
    Resolver.cacheProbeTimeoutMs = 5000
    ∧ ((Resolver.getTranscriptData m videoId env).2.2).head? = some Resolver.Action.cacheProbe
    ∧ (∀ s, env.wh1.cached = some s →
        Resolver.getTranscriptData m videoId env
          = (some ⟨true, Resolver.Source.whisper, s⟩, m, [Resolver.Action.cacheProbe]))
    ∧ (∀ s, env.wh1.cached = none → env.wh1.full = some s →
        Resolver.getTranscriptData m videoId env
          = (some ⟨true, Resolver.Source.whisper, s⟩, m,
             [Resolver.Action.cacheProbe, Resolver.Action.fullTranscription]))
    ∧ (env.wh1.cached = none → env.wh1.full = none →
        ∃ rest, (Resolver.getTranscriptData m videoId env).2.2
          = Resolver.Action.cacheProbe :: Resolver.Action.fullTranscription
              :: Resolver.Action.captionFetch :: rest) := by
  obtain ⟨y1, y2, w1, w2⟩ := env
  obtain ⟨c, f⟩ := w1
  refine ⟨rfl, ?_, ?_, ?_, ?_⟩
  · cases c with
    | some s => simp [Resolver.getTranscriptData, h, Resolver.transcribeWithWhisper]
    | none =>
        cases f with
        | some s => simp [Resolver.getTranscriptData, h, Resolver.transcribeWithWhisper]
        | none =>
            obtain ⟨rest, hr⟩ := Resolver.resolveStep1_trace m videoId y1 w2
              [Resolver.Action.cacheProbe, Resolver.Action.fullTranscription]
            simp [Resolver.getTranscriptData, h, Resolver.transcribeWithWhisper, hr]
  · intro s hc
    subst hc
    simp [Resolver.getTranscriptData, h, Resolver.transcribeWithWhisper]
  · intro s hc hf
    subst hc hf
    simp [Resolver.getTranscriptData, h, Resolver.transcribeWithWhisper]
  · intro hc hf
    subst hc hf
    obtain ⟨rest, hr⟩ := Resolver.resolveStep1_trace m videoId y1 w2
      [Resolver.Action.cacheProbe, Resolver.Action.fullTranscription]
    exact ⟨rest, by simp [Resolver.getTranscriptData, h, Resolver.transcribeWithWhisper, hr]⟩

/-- Witness for the amended C2 at a concrete input: affinity `'whisper'`
for every id, a cache hit with an empty sentence list; the resolver
returns it immediately after the probe. -/
theorem resolver_transcribed_probes_cache_witness :
    ((fun _ => some Resolver.Source.whisper : Resolver.Affinity) "v"
        = some Resolver.Source.whisper)
    ∧ Resolver.getTranscriptData (fun _ => some Resolver.Source.whisper) "v"
        ⟨Resolver.YtOutcome.thrown, Resolver.YtOutcome.thrown,
         ⟨some [], none⟩, ⟨none, none⟩⟩
      = (some ⟨true, Resolver.Source.whisper, []⟩,
         (fun _ => some Resolver.Source.whisper),
         [Resolver.Action.cacheProbe]) :=
  ⟨rfl,
   (resolver_transcribed_probes_cache_then_transcribes
      (fun _ => some Resolver.Source.whisper) "v"
      ⟨Resolver.YtOutcome.thrown, Resolver.YtOutcome.thrown,
       ⟨some [], none⟩, ⟨none, none⟩⟩ rfl).2.2.1 [] rfl⟩

/-- C5. If the last successful resolution of a mediaId used captions
(affinity `'youtube'`), the next `getTranscriptData` attempts the caption
source first: the first external action of its trace is a caption fetch,
and every whisper action (cache probe or full transcription) occurs at a
strictly later position. -/
theorem resolver_caption_affinity_tries_captions_first (m : Resolver.Affinity)
    (videoId : String) (env : Resolver.Env)
    (h : m videoId = some Resolver.Source.youtube) :
    ((Resolver.getTranscriptData m videoId env).2.2).head?
      = some Resolver.Action.captionFetch
    ∧ ∀ i, (((Resolver.getTranscriptData m videoId env).2.2).get? i
              = some Resolver.Action.cacheProbe
            ∨ ((Resolver.getTranscriptData m videoId env).2.2).get? i
              = some Resolver.Action.fullTranscription) → 0 < i := by
  have hhead : ((Resolver.getTranscriptData m videoId env).2.2).head?
      = some Resolver.Action.captionFetch := by
    obtain ⟨y1, y2, w1, w2⟩ := env
    cases y1 with
    | ok s =>
        by_cases hs : s.isEmpty
        · obtain ⟨rest, hr⟩ := Resolver.resolveStep1_trace m videoId y2 w1
            [Resolver.Action.captionFetch]
          simp [Resolver.getTranscriptData, h, hs, hr]
        · simp [Resolver.getTranscriptData, h, hs]
    | thrown =>
        obtain ⟨rest, hr⟩ := Resolver.resolveStep1_trace m videoId y2 w1
          [Resolver.Action.captionFetch]
        simp [Resolver.getTranscriptData, h, hr]
  refine ⟨hhead, fun i hi => ?_⟩
  rcases i with _ | i
  · exfalso
    rw [List.head?_eq_getElem?] at hhead
    simp only [List.get?_eq_getElem?] at hi
    rcases hi with hi | hi <;> simp_all
  · omega

/-- Witness for C5 at a concrete input: affinity `'youtube'`, first
caption attempt throws, captions still come first in the trace. -/
theorem resolver_caption_affinity_witness :
    ((fun _ => some Resolver.Source.youtube : Resolver.Affinity) "v"
        = some Resolver.Source.youtube)
    ∧ ((Resolver.getTranscriptData (fun _ => some Resolver.Source.youtube) "v"
          ⟨Resolver.YtOutcome.thrown, Resolver.YtOutcome.thrown,
           ⟨none, none⟩, ⟨none, none⟩⟩).2.2).head?
        = some Resolver.Action.captionFetch :=
  ⟨rfl,
   (resolver_caption_affinity_tries_captions_first
      (fun _ => some Resolver.Source.youtube) "v"
      ⟨Resolver.YtOutcome.thrown, Resolver.YtOutcome.thrown,
       ⟨none, none⟩, ⟨none, none⟩⟩ rfl).1⟩

/-- C7. After every `getTranscriptData`: on success the affinity map
records, at the resolved id, the source that produced the returned
transcript; on failure the map is unchanged. -/
theorem resolver_affinity_records_winning_source (m : Resolver.Affinity)
    (videoId : String) (env : Resolver.Env) :
    (∀ r, (Resolver.getTranscriptData m videoId env).1 = some r →
      (Resolver.getTranscriptData m videoId env).2.1 videoId = some r.source)
    ∧ ((Resolver.getTranscriptData m videoId env).1 = none →
      (Resolver.getTranscriptData m videoId env).2.1 = m) := by
  obtain ⟨y1, y2, w1, w2⟩ := env
  rcases haff : m videoId with _ | src
  · simpa [Resolver.getTranscriptData, haff] using
      Resolver.resolveStep1_spec m videoId y1 w1 []
  · cases src with
    | whisper =>
        rcases hW : Resolver.transcribeWithWhisper w1 with ⟨ro, acts⟩
        cases ro with
        | some r =>
            have hsrc : r.source = Resolver.Source.whisper :=
              Resolver.transcribeWithWhisper_source w1 r (by rw [hW])
            constructor
            · intro r2 hr2
              simp only [Resolver.getTranscriptData, haff, hW] at hr2 ⊢
              cases hr2
              rw [hsrc]
            · intro hnone
              simp [Resolver.getTranscriptData, haff, hW] at hnone
        | none =>
            simpa [Resolver.getTranscriptData, haff, hW] using
              Resolver.resolveStep1_spec m videoId y1 w2 acts
    | youtube =>
        cases y1 with
        | ok s =>
            by_cases hs : s.isEmpty
            · simpa [Resolver.getTranscriptData, haff, hs] using
                Resolver.resolveStep1_spec m videoId y2 w1 [Resolver.Action.captionFetch]
            · constructor
              · intro r2 hr2
                simp only [Resolver.getTranscriptData, haff, hs, if_neg] at hr2 ⊢
                simp only [hs, Bool.false_eq_true, if_false] at hr2 ⊢
                cases hr2
                rw [haff]
              · intro hnone
                simp [Resolver.getTranscriptData, haff, hs] at hnone
        | thrown =>
            simpa [Resolver.getTranscriptData, haff] using
              Resolver.resolveStep1_spec m videoId y2 w1 [Resolver.Action.captionFetch]

/-- Witness for C7 at a concrete input: unknown affinity, captions
succeed with one sentence; afterwards the map records `'youtube'` at the
resolved id. -/
theorem resolver_affinity_records_winner_witness :
    (Resolver.getTranscriptData (fun _ => none) "v"
        ⟨Resolver.YtOutcome.ok [⟨"hi", 0, 1, 1⟩], Resolver.YtOutcome.thrown,
         ⟨none, none⟩, ⟨none, none⟩⟩).1
      = some ⟨true, Resolver.Source.youtube, [⟨"hi", 0, 1, 1⟩]⟩
    ∧ (Resolver.getTranscriptData (fun _ => none) "v"
        ⟨Resolver.YtOutcome.ok [⟨"hi", 0, 1, 1⟩], Resolver.YtOutcome.thrown,
         ⟨none, none⟩, ⟨none, none⟩⟩).2.1 "v" = some Resolver.Source.youtube :=
  ⟨by decide,
   (resolver_affinity_records_winning_source (fun _ => none) "v"
      ⟨Resolver.YtOutcome.ok [⟨"hi", 0, 1, 1⟩], Resolver.YtOutcome.thrown,
       ⟨none, none⟩, ⟨none, none⟩⟩).1
     ⟨true, Resolver.Source.youtube, [⟨"hi", 0, 1, 1⟩]⟩ (by decide)⟩

/-- C6 counterexample.  When the audio source is already attached
elsewhere (`createMediaElementSource` throws), the inner handler warns and
returns: no 5-second fallback is armed and no detector runs, so the
callback never fires — refuting "the detector falls back to a fixed
5-second delay" for that case. -/
theorem vad_setup_source_connected_no_fallback_cex :
    (Setup.startVoiceActivityDetectionSetup
        Setup.GraphOutcome.sourceAlreadyConnected).fallbackDelayMs = none
    ∧ (Setup.startVoiceActivityDetectionSetup
        Setup.GraphOutcome.sourceAlreadyConnected).vadIntervalArmed = false := by
  decide

/-- C6 amended.  Only an exception reaching the outer catch of
`startVoiceActivityDetection` (graph construction error) arms the fixed
5000ms fallback that fires the same callback; an unsupported (non-web)
platform or an already-attached source returns with neither the detector
nor any fallback armed, so the callback never fires there; in every case
the error is not surfaced to the caller. -/
theorem vad_setup_fallback_only_on_construction_error :
    Setup.startVoiceActivityDetectionSetup Setup.GraphOutcome.constructionError
      = ⟨false, some 5000, false⟩
    ∧ Setup.startVoiceActivityDetectionSetup Setup.GraphOutcome.sourceAlreadyConnected
      = ⟨false, none, false⟩
    ∧ Setup.startVoiceActivityDetectionSetup Setup.GraphOutcome.notWebRuntime
      = ⟨false, none, false⟩
    ∧ Setup.startVoiceActivityDetectionSetup Setup.GraphOutcome.okGraph
      = ⟨true, none, false⟩
    ∧ ∀ o, (Setup.startVoiceActivityDetectionSetup o).errorSurfaced = false := by
  refine ⟨rfl, rfl, rfl, rfl, fun o => ?_⟩
  cases o <;> rfl

/-- C3. In a platform-consistent state, calling `playSentenceOnly` twice
in succession (attempts `g1` then `g2`) leaves the first attempt's
trigger disarmed and exactly the second attempt's trigger(s) armed: `g1`
tags no armed trigger, `g2` does, and every armed trigger is tagged `g2`
— so only the second trigger can fire. -/
theorem playCurrent_twice_only_second_trigger_armed
    (plat : Playback.Plat) (g1 g2 : Nat) (sen1 sen2 : Playback.Sentence)
    (s : Playback.OrchState) (hc : Playback.cleanState plat s) (hne : g1 ≠ g2) :
    g1 ∉ Playback.armedTriggerGens
        (Playback.playSentenceOnly plat g2 sen2 (Playback.playSentenceOnly plat g1 sen1 s))
    ∧ g2 ∈ Playback.armedTriggerGens
        (Playback.playSentenceOnly plat g2 sen2 (Playback.playSentenceOnly plat g1 sen1 s))
    ∧ ∀ x ∈ Playback.armedTriggerGens
        (Playback.playSentenceOnly plat g2 sen2 (Playback.playSentenceOnly plat g1 sen1 s)),
        x = g2 := by
  cases plat with
  | web =>
      have ht : s.sentenceTimer = none := hc
      simp only [Playback.playSentenceOnly, Playback.playWithVAD,
        Playback.armedTriggerGens]
      split_ifs <;> simp_all
  | native =>
      obtain ⟨hv, he⟩ := hc
      simp only [Playback.playSentenceOnly, Playback.playerPlayNative,
        Playback.armedTriggerGens]
      simp_all

/-- Witness for C3 at a concrete input: an idle web-platform state, two
successive attempts tagged 0 and 1; attempt 1's trigger is the one armed. -/
theorem playCurrent_twice_witness :
    Playback.cleanState Playback.Plat.web
      ⟨⟨false, none, none⟩, none, false, false, false, false, false, false, 0, none, none, false⟩
    ∧ (0 : Nat) ≠ 1
    ∧ 1 ∈ Playback.armedTriggerGens
        (Playback.playSentenceOnly Playback.Plat.web 1 ⟨0, 2, 2⟩
          (Playback.playSentenceOnly Playback.Plat.web 0 ⟨10, 13, 3⟩
            ⟨⟨false, none, none⟩, none, false, false, false, false, false, false, 0, none, none, false⟩)) :=
  ⟨rfl, by decide,
   (playCurrent_twice_only_second_trigger_armed Playback.Plat.web 0 1 ⟨10, 13, 3⟩ ⟨0, 2, 2⟩
      ⟨⟨false, none, none⟩, none, false, false, false, false, false, false, 0, none, none, false⟩
      rfl (by decide)).2.1⟩

/-- C4.  The claim says the global pause stops the active backend,
disarms every trigger and detector, clears auto-advance and transitions
to Paused.  The code's pause branch guards the player pause with
`isAudioPlaying` — but no code path ever sets `isAudioPlaying` to true
(the screen tracks original-audio playback in `isPlaying` instead; the
first two conjuncts show `playSentenceOnly` and the stop-timer callback
leave `isAudioPlaying` untouched, and every other write sets it false).
So at the failing input — a web state playing an original-audio sentence
with the VAD armed — the pause clears auto-advance, the stop timer and
`isGlobalPlaying`, but leaves the audio backend playing and the VAD
detector armed, which can still fire afterwards. -/
theorem global_pause_leaves_original_backend_running :
    (∀ plat g sen (s : Playback.OrchState),
      (Playback.playSentenceOnly plat g sen s).isAudioPlaying = s.isAudioPlaying)
    ∧ (∀ plat (s : Playback.OrchState),
      (Playback.fireSentenceTimer plat s).isAudioPlaying = s.isAudioPlaying)
    ∧ (Playback.toggleGlobalPlaybackPause Playback.Plat.web
        ⟨⟨true, some 1, some 1⟩, none, true, true, false, false, true, false, 2, none, some 10, false⟩)
      = ⟨⟨true, some 1, some 1⟩, none, true, false, false, false, false, false, 2, none, some 10, false⟩ := by
  refine ⟨fun plat g sen s => ?_, fun plat s => ?_, by decide⟩
  · cases plat <;>
      simp [Playback.playSentenceOnly, Playback.playWithVAD, Playback.playerPlayNative]
  · cases h : s.sentenceTimer <;> simp [Playback.fireSentenceTimer, h]

/-- C8. For the sentence {start 10, end 13, duration 3} played in timer
mode (native path): `playSentenceOnly` seeks the backend to 10 and arms a
stop timer of exactly `duration * 1000 + paddingMs` = 3200ms; when that
timer fires with auto-advance disabled, the orchestrator is not playing,
no advance is pending, and the current sentence index is unchanged. -/
theorem playCurrent_timer_scenario_3200ms (s : Playback.OrchState) (g : Nat)
    (h : s.isAutoPlay = false) :
    (Playback.playSentenceOnly Playback.Plat.native g ⟨10, 13, 3⟩ s).seekPos = some 10
    ∧ (Playback.playSentenceOnly Playback.Plat.native g ⟨10, 13, 3⟩ s).sentenceTimer
        = some (g, (3 : ℚ) * 1000 + Playback.paddingMs)
    ∧ (Playback.playSentenceOnly Playback.Plat.native g ⟨10, 13, 3⟩ s).sentenceTimer
        = some (g, 3200)
    ∧ (Playback.fireSentenceTimer Playback.Plat.native
        (Playback.playSentenceOnly Playback.Plat.native g ⟨10, 13, 3⟩ s)).isPlaying = false
    ∧ (Playback.fireSentenceTimer Playback.Plat.native
        (Playback.playSentenceOnly Playback.Plat.native g ⟨10, 13, 3⟩ s)).pendingAdvance = false
    ∧ (Playback.fireSentenceTimer Playback.Plat.native
        (Playback.playSentenceOnly Playback.Plat.native g ⟨10, 13, 3⟩ s)).player.playing = false
    ∧ (Playback.fireSentenceTimer Playback.Plat.native
        (Playback.playSentenceOnly Playback.Plat.native g ⟨10, 13, 3⟩ s)).currentIndex
        = s.currentIndex := by
  refine ⟨rfl, rfl, ?_, ?_, ?_, ?_, ?_⟩
  all_goals simp [Playback.playSentenceOnly, Playback.playerPlayNative,
    Playback.fireSentenceTimer, Playback.playerPause, Playback.paddingMs, h]
  all_goals norm_num

/-- Witness for C8 at a concrete input: the idle state with auto-advance
off; the armed timer is 3200ms. -/
theorem playCurrent_timer_scenario_witness :
    (⟨⟨false, none, none⟩, none, false, false, false, false, false, false, 0, none, none, false⟩
        : Playback.OrchState).isAutoPlay = false
    ∧ (Playback.playSentenceOnly Playback.Plat.native 0 ⟨10, 13, 3⟩
        ⟨⟨false, none, none⟩, none, false, false, false, false, false, false, 0, none, none, false⟩).sentenceTimer
      = some (0, 3200) :=
  ⟨rfl,
   (playCurrent_timer_scenario_3200ms
      ⟨⟨false, none, none⟩, none, false, false, false, false, false, false, 0, none, none, false⟩
      0 rfl).2.2.1⟩
